import Mathlib

/-!
Verification of the QUIC streamer server setup module (`src/quic.rs` of
solana-streamer): a shallow embedding of `configure_server`,
`SkipClientVerification`, `EndpointKeyUpdater`, `StreamStats::report` and
`spawn_server`, together with theorems about the claims of the spec.

Machine integers are modelled as `Nat` with explicit truncation
(`% 2 ^ 32` for `as u32`) and saturation (`min _ USIZE_MAX` for
`saturating_mul`) where the source does casts; `usize` is taken to be
64 bits wide, as on the validator targets.  Fallible Rust code returns
`Except`.  External collaborators (the certificate generator, the rustls
private-key check, quinn endpoint creation) are modelled as an explicit
`Externals` record of oracles, so every theorem quantifies over their
behaviour.
-/

/-- DER bytes of an X.509 certificate (`rustls::Certificate` wraps `Vec<u8>`). -/
abbrev Certificate := List Nat

/-- DER bytes of a private key (`rustls::PrivateKey`). -/
abbrev PrivateKey := List Nat

/-- An identity keypair (`solana_sdk::signature::Keypair`), abstracted to its seed. -/
abbrev Keypair := Nat

/-- An IP address (`std::net::IpAddr`), abstracted. -/
abbrev IpAddr := Nat

/-- A point in time (`std::time::SystemTime`), abstracted. -/
abbrev SystemTime := Nat

/-- A distinguished name (`rustls::DistinguishedName`), abstracted. -/
abbrev DistinguishedName := List Nat

/-- A UDP socket handle (`std::net::UdpSocket`), abstracted. -/
abbrev UdpSocket := Nat

/-- `PACKET_DATA_SIZE` from `solana_sdk::packet`: 1232 bytes. -/
def PACKET_DATA_SIZE : Nat := 1232

/-- `QUIC_MAX_TIMEOUT` from `solana_sdk::quic`, in milliseconds (2 seconds). -/
def QUIC_MAX_TIMEOUT : Nat := 2000

/-- `QUIC_MAX_UNSTAKED_CONCURRENT_STREAMS` from `solana_sdk::quic`. -/
def QUIC_MAX_UNSTAKED_CONCURRENT_STREAMS : Nat := 128

/-- `pub const MAX_STAKED_CONNECTIONS: usize = 2000;` (src/quic.rs line 22). -/
def MAX_STAKED_CONNECTIONS : Nat := 2000

/-- `pub const MAX_UNSTAKED_CONNECTIONS: usize = 500;` (src/quic.rs line 23). -/
def MAX_UNSTAKED_CONNECTIONS : Nat := 500

/-- Largest value of a 64-bit `usize`. -/
def USIZE_MAX : Nat := 2 ^ 64 - 1

/-- Rust `usize::saturating_mul` on 64-bit targets. -/
def usize_saturating_mul (a b : Nat) : Nat := min (a * b) USIZE_MAX

/-- Rust `as u32` cast from `usize`: truncation modulo `2 ^ 32`. -/
def usize_as_u32 (a : Nat) : Nat := a % 2 ^ 32

/-- The constant `MAX_CONCURRENT_UNI_STREAMS` of `configure_server`
(src/quic.rs lines 80-81), as a function of the value of
`QUIC_MAX_UNSTAKED_CONCURRENT_STREAMS`:
`(q.saturating_mul(2)) as u32`. -/
def MAX_CONCURRENT_UNI_STREAMS_of (q : Nat) : Nat :=
  usize_as_u32 (usize_saturating_mul q 2)

/-- `const MAX_CONCURRENT_UNI_STREAMS: u32 = (QUIC_MAX_UNSTAKED_CONCURRENT_STREAMS.saturating_mul(2)) as u32;` -/
def MAX_CONCURRENT_UNI_STREAMS : Nat :=
  MAX_CONCURRENT_UNI_STREAMS_of QUIC_MAX_UNSTAKED_CONCURRENT_STREAMS

/-- Modelled from the spec: `ALPN_TPU_PROTOCOL_ID` lives in
`crate::nonblocking::quic`, which is not under src/; the spec fixes the
ALPN string to "solana-tpu". -/
def ALPN_TPU_PROTOCOL_ID : String := "solana-tpu"

/-- An error of the `rcgen` certificate generator, abstracted to a code. -/
structure RcgenError where
  code : Nat
deriving DecidableEq, Repr, Inhabited

/-- An error of the `rustls` TLS library, abstracted to a code. -/
structure RustlsError where
  code : Nat
deriving DecidableEq, Repr, Inhabited

/-- An I/O error (`std::io::Error`), abstracted to a code. -/
structure IoError where
  code : Nat
deriving DecidableEq, Repr, Inhabited

/-- `QuicServerError` (src/quic.rs lines 110-118): the only error kinds a
server-startup failure can surface as. -/
inductive QuicServerError where
  | EndpointFailed : IoError → QuicServerError
  | CertificateError : RcgenError → QuicServerError
  | TlsError : RustlsError → QuicServerError
deriving DecidableEq, Repr

/-- One PEM block (`pem::Pem`): a tag and the raw DER contents. -/
structure Pem where
  tag : String
  contents : List Nat
deriving DecidableEq, Repr, Inhabited

/-- `pem::encode_many`, modelled at the block level: the rendered PEM
string is represented by the ordered list of its blocks (the textual
base64 rendering of the external `pem` crate is injective on this data,
so nothing of the claims is lost). -/
def pem.encode_many (parts : List Pem) : List Pem := parts

/-- Which client-certificate verifier a rustls server config holds. -/
inductive ClientCertVerifierKind where
  | skipClientVerification
deriving DecidableEq, Repr, Inhabited

/-- The rustls server TLS configuration, keeping the fields
`configure_server` establishes. -/
structure RustlsServerConfig where
  client_cert_verifier : ClientCertVerifierKind
  cert_chain : List Certificate
  priv_key : PrivateKey
  alpn_protocols : List String
deriving DecidableEq, Repr, Inhabited

/-- The quinn transport configuration: the fields `configure_server`
sets.  Idle timeout and datagram buffer are `Option` as in quinn. -/
structure TransportConfig where
  max_concurrent_uni_streams : Nat
  max_concurrent_bidi_streams : Nat
  stream_receive_window : Nat
  receive_window : Nat
  max_idle_timeout : Option Nat
  datagram_receive_buffer_size : Option Nat
  enable_segmentation_offload : Bool
deriving DecidableEq, Repr, Inhabited

/-- quinn transport defaults (values irrelevant to the claims: every
field the claims mention is overwritten by `configure_server`). -/
def TransportConfig.default : TransportConfig where
  max_concurrent_uni_streams := 100
  max_concurrent_bidi_streams := 100
  stream_receive_window := 1250000
  receive_window := 8000000
  max_idle_timeout := none
  datagram_receive_buffer_size := some 65535
  enable_segmentation_offload := true

/-- The quinn `ServerConfig`: crypto plus the knobs `configure_server` turns. -/
structure ServerConfig where
  crypto : RustlsServerConfig
  concurrent_connections : Nat
  use_retry : Bool
  transport : TransportConfig
deriving DecidableEq, Repr, Inhabited

/-- `quinn::ServerConfig::with_crypto`: fresh config with default
transport, retry off. -/
def ServerConfig.with_crypto (crypto : RustlsServerConfig) : ServerConfig where
  crypto := crypto
  concurrent_connections := 100000
  use_retry := false
  transport := TransportConfig.default

/-- `quinn::IdleTimeout::try_from(Duration)`: succeeds iff the duration in
milliseconds fits a QUIC VarInt (`< 2 ^ 62`). -/
def IdleTimeout.tryFrom (ms : Nat) : Option Nat :=
  if ms < 2 ^ 62 then some ms else none

/-- The external collaborators of src/quic.rs, as oracles:
`new_self_signed_tls_certificate` (crate::tls_certificates, not under
src/; per the spec it produces a self-signed certificate bound to the
signing key and gossip IP, or fails with an `RcgenError`);
`with_single_cert_err` (rustls private-key validation inside
`with_single_cert`: `none` means the key is accepted);
`create_endpoint` (quinn endpoint construction on a UDP socket, which
can fail with an I/O error). -/
structure Externals where
  new_self_signed_tls_certificate :
    Keypair → IpAddr → Except RcgenError (Certificate × PrivateKey)
  with_single_cert_err : List Certificate → PrivateKey → Option RustlsError
  create_endpoint : UdpSocket → Except IoError Unit
deriving Inhabited

/-- `SkipClientVerification` (src/quic.rs line 25): a fieldless verifier. -/
structure SkipClientVerification where
deriving DecidableEq, Repr, Inhabited

/-- `SkipClientVerification::new`. -/
def SkipClientVerification.new : SkipClientVerification := {}

/-- `rustls::server::ClientCertVerified`: the token asserting acceptance. -/
inductive ClientCertVerified where
  | assertion
deriving DecidableEq, Repr, Inhabited

/-- `SkipClientVerification::client_auth_root_subjects` (src/quic.rs lines 40-42). -/
def SkipClientVerification.client_auth_root_subjects
    (_self : SkipClientVerification) : List DistinguishedName := []

/-- `SkipClientVerification::verify_client_cert` (src/quic.rs lines 44-51):
ignores all three arguments and returns `Ok(ClientCertVerified::assertion())`. -/
def SkipClientVerification.verify_client_cert (_self : SkipClientVerification)
    (_end_entity : Certificate) (_intermediates : List Certificate)
    (_now : SystemTime) : Except RustlsError ClientCertVerified :=
  Except.ok ClientCertVerified.assertion

/-- `with_single_cert` of the rustls server-config builder (as invoked in
src/quic.rs lines 68-71 with the `SkipClientVerification` verifier):
validates the private key against the chain (external behaviour, given by
the oracle) and on success yields the TLS config holding exactly that
single-certificate chain, that key and that verifier, with empty ALPN. -/
def with_single_cert (ext : Externals) (cert_chain : List Certificate)
    (key : PrivateKey) : Except RustlsError RustlsServerConfig :=
  match ext.with_single_cert_err cert_chain key with
  | some e => Except.error e
  | none =>
      Except.ok
        { client_cert_verifier := ClientCertVerifierKind.skipClientVerification
          cert_chain := cert_chain
          priv_key := key
          alpn_protocols := [] }

/-- `configure_server` (src/quic.rs lines 56-100), line by line:
generate the self-signed certificate, PEM-encode the chain, build the
rustls config with the skip verifier and the single cert, set ALPN,
then set the quinn knobs: concurrent connections (`as u32` cast), retry,
uni streams, stream/connection windows, idle timeout, bidi = 0,
datagrams off, GSO off. -/
def configure_server (ext : Externals) (identity_keypair : Keypair)
    (gossip_host : IpAddr) (max_concurrent_connections : Nat) :
    Except QuicServerError (ServerConfig × List Pem) :=
  match ext.new_self_signed_tls_certificate identity_keypair gossip_host with
  | Except.error e => Except.error (QuicServerError.CertificateError e)
  | Except.ok (cert, priv_key) =>
    let cert_chain_pem_parts : List Pem :=
      [{ tag := "CERTIFICATE", contents := cert }]
    let cert_chain_pem := pem.encode_many cert_chain_pem_parts
    match with_single_cert ext [cert] priv_key with
    | Except.error e => Except.error (QuicServerError.TlsError e)
    | Except.ok tls0 =>
      let server_tls_config := { tls0 with alpn_protocols := [ALPN_TPU_PROTOCOL_ID] }
      let server_config := ServerConfig.with_crypto server_tls_config
      let server_config :=
        { server_config with
            concurrent_connections := usize_as_u32 max_concurrent_connections }
      let server_config := { server_config with use_retry := true }
      let config := server_config.transport
      let config :=
        { config with max_concurrent_uni_streams := MAX_CONCURRENT_UNI_STREAMS }
      let config :=
        { config with stream_receive_window := usize_as_u32 PACKET_DATA_SIZE }
      let config := { config with receive_window := usize_as_u32 PACKET_DATA_SIZE }
      -- `IdleTimeout::try_from(QUIC_MAX_TIMEOUT).unwrap()`: 2000 ms is
      -- far below the VarInt bound, so the unwrap cannot panic.
      let timeout := (IdleTimeout.tryFrom QUIC_MAX_TIMEOUT).getD 0
      let config := { config with max_idle_timeout := some timeout }
      let config := { config with max_concurrent_bidi_streams := 0 }
      let config := { config with datagram_receive_buffer_size := none }
      let config := { config with enable_segmentation_offload := false }
      let server_config := { server_config with transport := config }
      Except.ok (server_config, cert_chain_pem)

/-- The quinn `Endpoint`, modelled by the state `set_server_config` acts
on: the currently installed server configuration. -/
structure Endpoint where
  server_config : Option ServerConfig
deriving DecidableEq, Repr, Inhabited

/-- `quinn::Endpoint::set_server_config`: atomically replaces the
installed configuration. -/
def Endpoint.set_server_config (ep : Endpoint) (c : Option ServerConfig) : Endpoint :=
  { ep with server_config := c }

/-- `EndpointKeyUpdater` (src/quic.rs lines 120-124): the endpoint handle
plus the captured gossip host and connection limit. -/
structure EndpointKeyUpdater where
  endpoint : Endpoint
  gossip_host : IpAddr
  max_concurrent_connections : Nat
deriving DecidableEq, Repr, Inhabited

/-- `EndpointKeyUpdater::update_key` (src/quic.rs lines 127-131):
rebuild the server configuration via `configure_server` with the captured
host and limit; on error propagate it, leaving the endpoint untouched; on
success install the new configuration and return `Ok(())`.  The returned
`Endpoint` is the state of the shared endpoint after the call. -/
def EndpointKeyUpdater.update_key (ext : Externals) (self : EndpointKeyUpdater)
    (key : Keypair) : Except QuicServerError Unit × Endpoint :=
  match configure_server ext key self.gossip_host self.max_concurrent_connections with
  | Except.error e => (Except.error e, self.endpoint)
  | Except.ok (config, _) =>
      (Except.ok (), self.endpoint.set_server_config (some config))

/-- The result of the nonblocking server spawn used by
`spawn_server` (src/quic.rs lines 478-495). -/
structure NonblockingSpawnServerResult where
  endpoint : Endpoint
  max_concurrent_connections : Nat
deriving DecidableEq, Repr, Inhabited

/-- Modelled from the spec: `crate::nonblocking::quic::spawn_server` is
code of this repository that is not under src/.  Per the spec's startup
policy ("`EndpointInit` (socket bind, TLS build, cert gen) | startup |
surface to caller; abort server start"), it builds the TLS/server
configuration for the identity key and gossip host via `configure_server`
and creates the endpoint on the socket; any certificate, TLS or endpoint
failure is surfaced as the corresponding `QuicServerError`.  The
concurrent-connection limit produced at startup is the total capacity of
the two bounded connection tables (spec defaults 2000 + 500); the spec
does not pin the exact formula, only that a limit is produced and later
reused unchanged by the key updater. -/
def nonblocking_spawn_server (ext : Externals) (sock : UdpSocket)
    (keypair : Keypair) (gossip_host : IpAddr)
    (max_staked_connections max_unstaked_connections : Nat) :
    Except QuicServerError NonblockingSpawnServerResult :=
  let max_concurrent_connections := max_staked_connections + max_unstaked_connections
  match configure_server ext keypair gossip_host max_concurrent_connections with
  | Except.error e => Except.error e
  | Except.ok (config, _) =>
    match ext.create_endpoint sock with
    | Except.error e => Except.error (QuicServerError.EndpointFailed e)
    | Except.ok () =>
        Except.ok
          { endpoint := { server_config := some config }
            max_concurrent_connections := max_concurrent_connections }

/-- An OS thread handle (`std::thread::JoinHandle<()>`), abstracted to
the thread name it was spawned with. -/
structure ThreadHandle where
  name : String
deriving DecidableEq, Repr, Inhabited

/-- `SpawnServerResult` (src/quic.rs lines 33-37). -/
structure SpawnServerResult where
  endpoint : Endpoint
  thread : ThreadHandle
  key_updater : EndpointKeyUpdater
deriving DecidableEq, Repr, Inhabited

/-- A packet-batch sender handle (`crossbeam_channel::Sender<PacketBatch>`), abstracted. -/
abbrev PacketSender := Unit

/-- The shared exit flag (`Arc<AtomicBool>`), abstracted to its value. -/
abbrev ExitFlag := Bool

/-- The shared staked-nodes view (`Arc<RwLock<StakedNodes>>`), abstracted. -/
abbrev StakedNodes := Unit

/-- A duration (`std::time::Duration`), in milliseconds. -/
abbrev Duration := Nat

/-- `spawn_server` (src/quic.rs lines 462-516): run the nonblocking spawn
on the runtime; `?`-propagate its error (in which case no server thread is
spawned); otherwise spawn the "solQuicServer" thread and build the
`EndpointKeyUpdater` capturing the endpoint, the `gossip_host` argument
and the startup `max_concurrent_connections`.  The second component
counts the OS threads spawned by the call (0 on the error path, 1 on
success), making the abort-before-spawn ordering of the source
observable. -/
def spawn_server (ext : Externals) (_name : String) (sock : UdpSocket)
    (keypair : Keypair) (gossip_host : IpAddr) (_packet_sender : PacketSender)
    (_exit : ExitFlag) (_max_connections_per_peer : Nat)
    (_staked_nodes : StakedNodes)
    (max_staked_connections max_unstaked_connections : Nat)
    (_max_streams_per_ms : Nat) (_wait_for_chunk_timeout _coalesce : Duration) :
    Except QuicServerError SpawnServerResult × Nat :=
  match nonblocking_spawn_server ext sock keypair gossip_host
      max_staked_connections max_unstaked_connections with
  | Except.error e => (Except.error e, 0)
  | Except.ok result =>
    let handle : ThreadHandle := { name := "solQuicServer" }
    let updater : EndpointKeyUpdater :=
      { endpoint := result.endpoint
        gossip_host := gossip_host
        max_concurrent_connections := result.max_concurrent_connections }
    (Except.ok
      { endpoint := result.endpoint
        thread := handle
        key_updater := updater }, 1)

/-- `StreamStats` (src/quic.rs lines 134-185): the flat set of atomic
counters and gauges, modelled as a record of their values. -/
structure StreamStats where
  total_connections : Nat
  total_new_connections : Nat
  total_streams : Nat
  total_new_streams : Nat
  total_invalid_chunks : Nat
  total_invalid_chunk_size : Nat
  total_packets_allocated : Nat
  total_packet_batches_allocated : Nat
  total_chunks_received : Nat
  total_staked_chunks_received : Nat
  total_unstaked_chunks_received : Nat
  total_packet_batch_send_err : Nat
  total_handle_chunk_to_packet_batcher_send_err : Nat
  total_packet_batches_sent : Nat
  total_packet_batches_none : Nat
  total_packets_sent_for_batching : Nat
  total_bytes_sent_for_batching : Nat
  total_chunks_sent_for_batching : Nat
  total_packets_sent_to_consumer : Nat
  total_bytes_sent_to_consumer : Nat
  total_chunks_processed_by_batcher : Nat
  total_stream_read_errors : Nat
  total_stream_read_timeouts : Nat
  num_evictions : Nat
  connection_added_from_staked_peer : Nat
  connection_added_from_unstaked_peer : Nat
  connection_add_failed : Nat
  connection_add_failed_invalid_stream_count : Nat
  connection_add_failed_staked_node : Nat
  connection_add_failed_unstaked_node : Nat
  connection_add_failed_on_pruning : Nat
  connection_setup_timeout : Nat
  connection_setup_error : Nat
  connection_setup_error_closed : Nat
  connection_setup_error_timed_out : Nat
  connection_setup_error_transport : Nat
  connection_setup_error_app_closed : Nat
  connection_setup_error_reset : Nat
  connection_setup_error_locally_closed : Nat
  connection_removed : Nat
  connection_remove_failed : Nat
  throttled_streams : Nat
  stream_load_ema : Nat
  stream_load_ema_overflow : Nat
  stream_load_capacity_overflow : Nat
  total_staked_packets_sent_for_batching : Nat
  total_unstaked_packets_sent_for_batching : Nat
  throttled_staked_streams : Nat
  throttled_unstaked_streams : Nat
deriving DecidableEq, Repr, Inhabited

/-- One emitted metrics datapoint (`datapoint_info!`): a measurement name
and the named numeric fields, in emission order. -/
structure Datapoint where
  name : String
  fields : List (String × Nat)
deriving DecidableEq, Repr, Inhabited

/-- `StreamStats::report` (src/quic.rs lines 188-458): emit one
`datapoint_info!` snapshot and return the post-call counter state.  Each
field of the datapoint carries the pre-call value of its counter, in the
order of the source; counters read with `swap(0, ...)` in the source are
zero afterwards, counters read with `load(...)` (the gauges
`total_connections`, `total_streams`, `stream_load_ema`,
`stream_load_ema_overflow`, `stream_load_capacity_overflow`) keep their
values.  The first component lists the datapoints emitted by the call. -/
def StreamStats.report (s : StreamStats) (name : String) :
    List Datapoint × StreamStats :=
  ([{ name := name
      fields :=
        [("active_connections", s.total_connections),
         ("active_streams", s.total_streams),
         ("new_connections", s.total_new_connections),
         ("new_streams", s.total_new_streams),
         ("evictions", s.num_evictions),
         ("connection_added_from_staked_peer", s.connection_added_from_staked_peer),
         ("connection_added_from_unstaked_peer", s.connection_added_from_unstaked_peer),
         ("connection_add_failed", s.connection_add_failed),
         ("connection_add_failed_invalid_stream_count",
          s.connection_add_failed_invalid_stream_count),
         ("connection_add_failed_staked_node", s.connection_add_failed_staked_node),
         ("connection_add_failed_unstaked_node", s.connection_add_failed_unstaked_node),
         ("connection_add_failed_on_pruning", s.connection_add_failed_on_pruning),
         ("connection_removed", s.connection_removed),
         ("connection_remove_failed", s.connection_remove_failed),
         ("connection_setup_timeout", s.connection_setup_timeout),
         ("connection_setup_error", s.connection_setup_error),
         ("connection_setup_error_timed_out", s.connection_setup_error_timed_out),
         ("connection_setup_error_closed", s.connection_setup_error_closed),
         ("connection_setup_error_transport", s.connection_setup_error_transport),
         ("connection_setup_error_app_closed", s.connection_setup_error_app_closed),
         ("connection_setup_error_reset", s.connection_setup_error_reset),
         ("connection_setup_error_locally_closed",
          s.connection_setup_error_locally_closed),
         ("invalid_chunk", s.total_invalid_chunks),
         ("invalid_chunk_size", s.total_invalid_chunk_size),
         ("packets_allocated", s.total_packets_allocated),
         ("packet_batches_allocated", s.total_packet_batches_allocated),
         ("packets_sent_for_batching", s.total_packets_sent_for_batching),
         ("staked_packets_sent_for_batching",
          s.total_staked_packets_sent_for_batching),
         ("unstaked_packets_sent_for_batching",
          s.total_unstaked_packets_sent_for_batching),
         ("bytes_sent_for_batching", s.total_bytes_sent_for_batching),
         ("chunks_sent_for_batching", s.total_chunks_sent_for_batching),
         ("packets_sent_to_consumer", s.total_packets_sent_to_consumer),
         ("bytes_sent_to_consumer", s.total_bytes_sent_to_consumer),
         ("chunks_processed_by_batcher", s.total_chunks_processed_by_batcher),
         ("chunks_received", s.total_chunks_received),
         ("staked_chunks_received", s.total_staked_chunks_received),
         ("unstaked_chunks_received", s.total_unstaked_chunks_received),
         ("packet_batch_send_error", s.total_packet_batch_send_err),
         ("handle_chunk_to_packet_batcher_send_error",
          s.total_handle_chunk_to_packet_batcher_send_err),
         ("packet_batches_sent", s.total_packet_batches_sent),
         ("packet_batch_empty", s.total_packet_batches_none),
         ("stream_read_errors", s.total_stream_read_errors),
         ("stream_read_timeouts", s.total_stream_read_timeouts),
         ("throttled_streams", s.throttled_streams),
         ("stream_load_ema", s.stream_load_ema),
         ("stream_load_ema_overflow", s.stream_load_ema_overflow),
         ("stream_load_capacity_overflow", s.stream_load_capacity_overflow),
         ("throttled_unstaked_streams", s.throttled_unstaked_streams),
         ("throttled_staked_streams", s.throttled_staked_streams)] }],
   { s with
      total_new_connections := 0
      total_new_streams := 0
      num_evictions := 0
      connection_added_from_staked_peer := 0
      connection_added_from_unstaked_peer := 0
      connection_add_failed := 0
      connection_add_failed_invalid_stream_count := 0
      connection_add_failed_staked_node := 0
      connection_add_failed_unstaked_node := 0
      connection_add_failed_on_pruning := 0
      connection_removed := 0
      connection_remove_failed := 0
      connection_setup_timeout := 0
      connection_setup_error := 0
      connection_setup_error_timed_out := 0
      connection_setup_error_closed := 0
      connection_setup_error_transport := 0
      connection_setup_error_app_closed := 0
      connection_setup_error_reset := 0
      connection_setup_error_locally_closed := 0
      total_invalid_chunks := 0
      total_invalid_chunk_size := 0
      total_packets_allocated := 0
      total_packet_batches_allocated := 0
      total_packets_sent_for_batching := 0
      total_staked_packets_sent_for_batching := 0
      total_unstaked_packets_sent_for_batching := 0
      total_bytes_sent_for_batching := 0
      total_chunks_sent_for_batching := 0
      total_packets_sent_to_consumer := 0
      total_bytes_sent_to_consumer := 0
      total_chunks_processed_by_batcher := 0
      total_chunks_received := 0
      total_staked_chunks_received := 0
      total_unstaked_chunks_received := 0
      total_packet_batch_send_err := 0
      total_handle_chunk_to_packet_batcher_send_err := 0
      total_packet_batches_sent := 0
      total_packet_batches_none := 0
      total_stream_read_errors := 0
      total_stream_read_timeouts := 0
      throttled_streams := 0
      throttled_unstaked_streams := 0
      throttled_staked_streams := 0 })

/-- A concrete external world on which every startup step succeeds. -/
def extOk : Externals where
  new_self_signed_tls_certificate := fun k h => Except.ok ([k, h], [k])
  with_single_cert_err := fun _ _ => none
  create_endpoint := fun _ => Except.ok ()

/-- A concrete external world whose certificate generation fails. -/
def extCertFail : Externals where
  new_self_signed_tls_certificate := fun _ _ => Except.error { code := 11 }
  with_single_cert_err := fun _ _ => none
  create_endpoint := fun _ => Except.ok ()

/-- A concrete external world whose rustls key validation fails. -/
def extTlsFail : Externals where
  new_self_signed_tls_certificate := fun k h => Except.ok ([k, h], [k])
  with_single_cert_err := fun _ _ => some { code := 22 }
  create_endpoint := fun _ => Except.ok ()

/-- A concrete external world whose endpoint creation fails. -/
def extEndpointFail : Externals where
  new_self_signed_tls_certificate := fun k h => Except.ok ([k, h], [k])
  with_single_cert_err := fun _ _ => none
  create_endpoint := fun _ => Except.error { code := 33 }

/-- The successful result of `configure_server` on `extOk` at keypair 7,
gossip host 3, connection limit 5. -/
def res0 : ServerConfig × List Pem :=
  ((configure_server extOk 7 3 5).toOption).getD default

/-- The server configuration of `res0`. -/
def cfg0 : ServerConfig := res0.1

/-- The PEM chain of `res0`. -/
def pem0 : List Pem := res0.2

/-- A concrete `EndpointKeyUpdater` with no configuration installed yet. -/
def u0 : EndpointKeyUpdater where
  endpoint := { server_config := none }
  gossip_host := 3
  max_concurrent_connections := 5

example : configure_server extOk 7 3 5 = Except.ok (cfg0, pem0) := rfl

example : pem0 = [{ tag := "CERTIFICATE", contents := [7, 3] }] := rfl

example : cfg0.transport.max_concurrent_uni_streams = 256 := rfl

/-- Normal form of `configure_server`: the two fallible external steps
followed by the fully-determined configuration record.  This is the
definition with the `let` chain of record updates evaluated; it is proved
by reflexivity and used to reason by cases on the external outcomes. -/
theorem configure_server_eq (ext : Externals) (k : Keypair) (gh : IpAddr) (m : Nat) :
    configure_server ext k gh m =
      match ext.new_self_signed_tls_certificate k gh with
      | Except.error e => Except.error (QuicServerError.CertificateError e)
      | Except.ok (cert, priv_key) =>
        match with_single_cert ext [cert] priv_key with
        | Except.error e => Except.error (QuicServerError.TlsError e)
        | Except.ok tls0 =>
            Except.ok
              ({ crypto := { tls0 with alpn_protocols := [ALPN_TPU_PROTOCOL_ID] }
                 concurrent_connections := usize_as_u32 m
                 use_retry := true
                 transport :=
                   { max_concurrent_uni_streams := MAX_CONCURRENT_UNI_STREAMS
                     max_concurrent_bidi_streams := 0
                     stream_receive_window := usize_as_u32 PACKET_DATA_SIZE
                     receive_window := usize_as_u32 PACKET_DATA_SIZE
                     max_idle_timeout := some QUIC_MAX_TIMEOUT
                     datagram_receive_buffer_size := none
                     enable_segmentation_offload := false } },
               [{ tag := "CERTIFICATE", contents := cert }]) := rfl

/-- C5: the default capacity constants equal the spec's defaults:
`MAX_STAKED_CONNECTIONS` = 2000 and `MAX_UNSTAKED_CONNECTIONS` = 500. -/
theorem C5_default_connection_capacities :
    MAX_STAKED_CONNECTIONS = 2000 ∧ MAX_UNSTAKED_CONNECTIONS = 500 :=
  ⟨rfl, rfl⟩

/-- C3: `SkipClientVerification::verify_client_cert` returns `Ok` for
every end-entity certificate, every intermediate list and every
timestamp; no input makes it return an error, so the certificate
signature chain is never validated. -/
theorem C3_verify_client_cert_always_ok (self : SkipClientVerification)
    (end_entity : Certificate) (intermediates : List Certificate)
    (now : SystemTime) :
    self.verify_client_cert end_entity intermediates now =
        Except.ok ClientCertVerified.assertion ∧
      ∀ e : RustlsError,
        self.verify_client_cert end_entity intermediates now ≠ Except.error e :=
  ⟨rfl, fun _ h => Except.noConfusion h⟩

/-- C8: the unidirectional stream limit is
`QUIC_MAX_UNSTAKED_CONCURRENT_STREAMS.saturating_mul(2) as u32`: the
saturating doubling stays within `usize` for every `q` (it cannot
overflow or panic), and whenever the saturated product fits the `u32`
cast the configured value equals `(2 * q) % 2 ^ 32`; the constant used by
`configure_server` is this function at `QUIC_MAX_UNSTAKED_CONCURRENT_STREAMS`. -/
theorem C8_uni_stream_limit (q : Nat) :
    usize_saturating_mul q 2 ≤ USIZE_MAX ∧
      (usize_saturating_mul q 2 < 2 ^ 32 →
        MAX_CONCURRENT_UNI_STREAMS_of q = (2 * q) % 2 ^ 32) ∧
      MAX_CONCURRENT_UNI_STREAMS =
        MAX_CONCURRENT_UNI_STREAMS_of QUIC_MAX_UNSTAKED_CONCURRENT_STREAMS := by
  refine ⟨min_le_right _ _, ?_, rfl⟩
  intro hlt
  unfold MAX_CONCURRENT_UNI_STREAMS_of usize_as_u32
  unfold usize_saturating_mul at hlt ⊢
  rcases le_or_lt (q * 2) USIZE_MAX with hle | hgt
  · rw [min_eq_left hle, Nat.mul_comm]
  · rw [min_eq_right hgt.le] at hlt
    exact absurd hlt (by decide)

/-- C8 witness: at the actual constant value 128, the saturated product
256 fits the cast and the configured value is `(2 * 128) % 2 ^ 32`. -/
theorem C8_uni_stream_limit_witness :
    usize_saturating_mul 128 2 < 2 ^ 32 ∧
      MAX_CONCURRENT_UNI_STREAMS_of 128 = (2 * 128) % 2 ^ 32 :=
  ⟨by decide, (C8_uni_stream_limit 128).2.1 (by decide)⟩

/-- C1: whenever `configure_server` succeeds, the returned `ServerConfig`
has max concurrent unidirectional streams equal to
2 · `QUIC_MAX_UNSTAKED_CONCURRENT_STREAMS`, per-stream receive window and
connection receive window each equal to `PACKET_DATA_SIZE` bytes, and max
idle timeout equal to `QUIC_MAX_TIMEOUT`. -/
theorem C1_transport_parameters (ext : Externals) (identity_keypair : Keypair)
    (gossip_host : IpAddr) (max_concurrent_connections : Nat)
    (cfg : ServerConfig) (pemChain : List Pem)
    (h : configure_server ext identity_keypair gossip_host
        max_concurrent_connections = Except.ok (cfg, pemChain)) :
    cfg.transport.max_concurrent_uni_streams =
        2 * QUIC_MAX_UNSTAKED_CONCURRENT_STREAMS ∧
      cfg.transport.stream_receive_window = PACKET_DATA_SIZE ∧
      cfg.transport.receive_window = PACKET_DATA_SIZE ∧
      cfg.transport.max_idle_timeout = some QUIC_MAX_TIMEOUT := by
  rw [configure_server_eq] at h
  cases hc : ext.new_self_signed_tls_certificate identity_keypair gossip_host with
  | error e => rw [hc] at h; exact Except.noConfusion h
  | ok pr =>
    obtain ⟨cert, priv_key⟩ := pr
    rw [hc] at h
    cases hw : with_single_cert ext [cert] priv_key with
    | error e => simp only [hw] at h; exact Except.noConfusion h
    | ok tls0 =>
      simp only [hw, Except.ok.injEq, Prod.mk.injEq] at h
      obtain ⟨hcfg, _⟩ := h
      subst hcfg
      exact ⟨rfl, rfl, rfl, rfl⟩

/-- C1 witness: the transport parameters of the concrete configuration
`cfg0` produced on `extOk`. -/
theorem C1_transport_parameters_witness :
    cfg0.transport.max_concurrent_uni_streams =
        2 * QUIC_MAX_UNSTAKED_CONCURRENT_STREAMS ∧
      cfg0.transport.stream_receive_window = PACKET_DATA_SIZE ∧
      cfg0.transport.receive_window = PACKET_DATA_SIZE ∧
      cfg0.transport.max_idle_timeout = some QUIC_MAX_TIMEOUT :=
  C1_transport_parameters extOk 7 3 5 cfg0 pem0 rfl

/-- C7 counterexample: the claim says the concurrent-connections limit is
set to the `max_concurrent_connections` argument, but the source casts it
with `as u32`; at argument `2 ^ 32` the call succeeds and the configured
limit is 0, not `2 ^ 32`. -/
theorem C7_concurrent_connections_counterexample :
    (configure_server extOk 7 3 (2 ^ 32)).toOption.map
        (fun r => r.1.concurrent_connections) = some 0 ∧
      (0 : Nat) ≠ 2 ^ 32 :=
  ⟨rfl, by decide⟩

/-- C7 (amended): whenever `configure_server` succeeds, the returned
configuration has retry tokens enabled, the concurrent-connections limit
set to the `max_concurrent_connections` argument truncated to `u32`
(mod `2 ^ 32`, hence equal to the argument whenever it is below
`2 ^ 32`), max concurrent bidirectional streams 0, the datagram receive
buffer disabled, and generic segmentation offload disabled. -/
theorem C7_server_config_flags (ext : Externals) (identity_keypair : Keypair)
    (gossip_host : IpAddr) (max_concurrent_connections : Nat)
    (cfg : ServerConfig) (pemChain : List Pem)
    (h : configure_server ext identity_keypair gossip_host
        max_concurrent_connections = Except.ok (cfg, pemChain)) :
    cfg.use_retry = true ∧
      cfg.concurrent_connections = max_concurrent_connections % 2 ^ 32 ∧
      (max_concurrent_connections < 2 ^ 32 →
        cfg.concurrent_connections = max_concurrent_connections) ∧
      cfg.transport.max_concurrent_bidi_streams = 0 ∧
      cfg.transport.datagram_receive_buffer_size = none ∧
      cfg.transport.enable_segmentation_offload = false := by
  rw [configure_server_eq] at h
  cases hc : ext.new_self_signed_tls_certificate identity_keypair gossip_host with
  | error e => rw [hc] at h; exact Except.noConfusion h
  | ok pr =>
    obtain ⟨cert, priv_key⟩ := pr
    rw [hc] at h
    cases hw : with_single_cert ext [cert] priv_key with
    | error e => simp only [hw] at h; exact Except.noConfusion h
    | ok tls0 =>
      simp only [hw, Except.ok.injEq, Prod.mk.injEq] at h
      obtain ⟨hcfg, _⟩ := h
      subst hcfg
      refine ⟨rfl, rfl, ?_, rfl, rfl, rfl⟩
      intro hlt
      exact Nat.mod_eq_of_lt hlt

/-- C7 witness: the flags of the concrete configuration `cfg0`, whose
connection limit 5 is below `2 ^ 32`. -/
theorem C7_server_config_flags_witness :
    cfg0.use_retry = true ∧
      cfg0.concurrent_connections = 5 % 2 ^ 32 ∧
      (5 < 2 ^ 32 → cfg0.concurrent_connections = 5) ∧
      cfg0.transport.max_concurrent_bidi_streams = 0 ∧
      cfg0.transport.datagram_receive_buffer_size = none ∧
      cfg0.transport.enable_segmentation_offload = false :=
  C7_server_config_flags extOk 7 3 5 cfg0 pem0 rfl

/-- C10: whenever `configure_server` succeeds, its second return value is
the PEM encoding of exactly one block tagged "CERTIFICATE" whose contents
are the DER bytes of the freshly generated self-signed certificate, and
that same certificate is the single-certificate chain installed in the
returned TLS configuration. -/
theorem C10_pem_certificate_chain (ext : Externals) (identity_keypair : Keypair)
    (gossip_host : IpAddr) (max_concurrent_connections : Nat)
    (cert : Certificate) (pk : PrivateKey) (cfg : ServerConfig)
    (pemChain : List Pem)
    (hcert : ext.new_self_signed_tls_certificate identity_keypair gossip_host =
      Except.ok (cert, pk))
    (h : configure_server ext identity_keypair gossip_host
        max_concurrent_connections = Except.ok (cfg, pemChain)) :
    pemChain = pem.encode_many [{ tag := "CERTIFICATE", contents := cert }] ∧
      pemChain = [{ tag := "CERTIFICATE", contents := cert }] ∧
      cfg.crypto.cert_chain = [cert] := by
  rw [configure_server_eq, hcert] at h
  unfold with_single_cert at h
  cases he : ext.with_single_cert_err [cert] pk with
  | some e => simp only [he] at h; exact Except.noConfusion h
  | none =>
    simp only [he, Except.ok.injEq, Prod.mk.injEq] at h
    obtain ⟨hcfg, hpem⟩ := h
    subst hcfg
    subst hpem
    exact ⟨rfl, rfl, rfl⟩

/-- C10 witness: the concrete run on `extOk` at keypair 7, gossip host 3,
whose generated certificate has DER bytes `[7, 3]`. -/
theorem C10_pem_certificate_chain_witness :
    pem0 = pem.encode_many [{ tag := "CERTIFICATE", contents := [7, 3] }] ∧
      pem0 = [{ tag := "CERTIFICATE", contents := [7, 3] }] ∧
      cfg0.crypto.cert_chain = [[7, 3]] :=
  C10_pem_certificate_chain extOk 7 3 5 [7, 3] [7] cfg0 pem0 rfl rfl

/-- C2: for every new signing key, if rebuilding the configuration fails,
`update_key` returns that error and the endpoint keeps its previous
configuration; if rebuilding succeeds, `update_key` installs the new
configuration via `set_server_config` and returns `Ok`. -/
theorem C2_update_key_installs_or_preserves (ext : Externals)
    (self : EndpointKeyUpdater) (key : Keypair) :
    (∀ e, configure_server ext key self.gossip_host
        self.max_concurrent_connections = Except.error e →
      self.update_key ext key = (Except.error e, self.endpoint)) ∧
      (∀ cfg pemChain, configure_server ext key self.gossip_host
          self.max_concurrent_connections = Except.ok (cfg, pemChain) →
        self.update_key ext key =
          (Except.ok (), self.endpoint.set_server_config (some cfg))) := by
  constructor
  · intro e he
    unfold EndpointKeyUpdater.update_key
    rw [he]
  · intro cfg pemChain hok
    unfold EndpointKeyUpdater.update_key
    rw [hok]

/-- C2 witness: on `extOk` the new configuration `cfg0` is installed on
`u0`'s endpoint; on `extCertFail` the certificate error is returned and
`u0`'s endpoint state is unchanged. -/
theorem C2_update_key_witness :
    u0.update_key extOk 7 =
        (Except.ok (), u0.endpoint.set_server_config (some cfg0)) ∧
      u0.update_key extCertFail 7 =
        (Except.error (QuicServerError.CertificateError { code := 11 }),
         u0.endpoint) :=
  ⟨(C2_update_key_installs_or_preserves extOk u0 7).2 cfg0 pem0 rfl,
   (C2_update_key_installs_or_preserves extCertFail u0 7).1
     (QuicServerError.CertificateError { code := 11 }) rfl⟩

/-- C6: every startup failure is surfaced to the caller as an `Err` of
the `QuicServerError` enum, and on such an error `spawn_server` spawns no
server thread: (i) whenever `spawn_server` returns an error the spawned
thread count is 0; (ii) a certificate-generation failure surfaces as
`CertificateError`; (iii) a TLS build failure surfaces as `TlsError`;
(iv) an endpoint-creation failure surfaces as `EndpointFailed`; (v) every
`QuicServerError` value is one of these three kinds. -/
theorem C6_startup_errors_surface (ext : Externals) (name : String)
    (sock : UdpSocket) (keypair : Keypair) (gossip_host : IpAddr)
    (packet_sender : PacketSender) (exit_flag : ExitFlag)
    (max_connections_per_peer : Nat) (staked_nodes : StakedNodes)
    (max_staked_connections max_unstaked_connections : Nat)
    (max_streams_per_ms : Nat) (wait_for_chunk_timeout coalesce : Duration) :
    (∀ e n,
      spawn_server ext name sock keypair gossip_host packet_sender exit_flag
          max_connections_per_peer staked_nodes max_staked_connections
          max_unstaked_connections max_streams_per_ms wait_for_chunk_timeout
          coalesce = (Except.error e, n) → n = 0) ∧
      (∀ e, ext.new_self_signed_tls_certificate keypair gossip_host =
          Except.error e →
        spawn_server ext name sock keypair gossip_host packet_sender exit_flag
            max_connections_per_peer staked_nodes max_staked_connections
            max_unstaked_connections max_streams_per_ms wait_for_chunk_timeout
            coalesce =
          (Except.error (QuicServerError.CertificateError e), 0)) ∧
      (∀ cert pk e,
        ext.new_self_signed_tls_certificate keypair gossip_host =
            Except.ok (cert, pk) →
        ext.with_single_cert_err [cert] pk = some e →
        spawn_server ext name sock keypair gossip_host packet_sender exit_flag
            max_connections_per_peer staked_nodes max_staked_connections
            max_unstaked_connections max_streams_per_ms wait_for_chunk_timeout
            coalesce =
          (Except.error (QuicServerError.TlsError e), 0)) ∧
      (∀ cert pk e,
        ext.new_self_signed_tls_certificate keypair gossip_host =
            Except.ok (cert, pk) →
        ext.with_single_cert_err [cert] pk = none →
        ext.create_endpoint sock = Except.error e →
        spawn_server ext name sock keypair gossip_host packet_sender exit_flag
            max_connections_per_peer staked_nodes max_staked_connections
            max_unstaked_connections max_streams_per_ms wait_for_chunk_timeout
            coalesce =
          (Except.error (QuicServerError.EndpointFailed e), 0)) ∧
      (∀ err : QuicServerError,
        (∃ e, err = QuicServerError.EndpointFailed e) ∨
          (∃ e, err = QuicServerError.CertificateError e) ∨
          (∃ e, err = QuicServerError.TlsError e)) := by
  refine ⟨?_, ?_, ?_, ?_, ?_⟩
  · intro e n hsp
    unfold spawn_server at hsp
    cases hnb : nonblocking_spawn_server ext sock keypair gossip_host
        max_staked_connections max_unstaked_connections with
    | error e2 =>
      rw [hnb] at hsp
      simp only [Prod.mk.injEq] at hsp
      exact hsp.2.symm
    | ok result =>
      rw [hnb] at hsp
      simp at hsp
  · intro e he
    simp only [spawn_server, nonblocking_spawn_server, configure_server_eq, he]
  · intro cert pk e hc ht
    simp only [spawn_server, nonblocking_spawn_server, configure_server_eq,
      with_single_cert, hc, ht]
  · intro cert pk e hc ht hep
    simp only [spawn_server, nonblocking_spawn_server, configure_server_eq,
      with_single_cert, hc, ht, hep]
  · intro err
    cases err with
    | EndpointFailed e => exact Or.inl ⟨e, rfl⟩
    | CertificateError e => exact Or.inr (Or.inl ⟨e, rfl⟩)
    | TlsError e => exact Or.inr (Or.inr ⟨e, rfl⟩)

/-- C6 witness: concrete runs in which certificate generation, the TLS
build, and endpoint creation each fail, surfacing the matching error kind
with no thread spawned. -/
theorem C6_startup_errors_surface_witness :
    (0 : Nat) = 0 ∧
      spawn_server extCertFail "quic" 1 7 3 () false 8 () 2000 500 100 10 5 =
        (Except.error (QuicServerError.CertificateError { code := 11 }), 0) ∧
      spawn_server extTlsFail "quic" 1 7 3 () false 8 () 2000 500 100 10 5 =
        (Except.error (QuicServerError.TlsError { code := 22 }), 0) ∧
      spawn_server extEndpointFail "quic" 1 7 3 () false 8 () 2000 500 100 10 5 =
        (Except.error (QuicServerError.EndpointFailed { code := 33 }), 0) :=
  ⟨(C6_startup_errors_surface extCertFail "quic" 1 7 3 () false 8 () 2000 500
      100 10 5).1 (QuicServerError.CertificateError { code := 11 }) 0 rfl,
   (C6_startup_errors_surface extCertFail "quic" 1 7 3 () false 8 () 2000 500
      100 10 5).2.1 { code := 11 } rfl,
   (C6_startup_errors_surface extTlsFail "quic" 1 7 3 () false 8 () 2000 500
      100 10 5).2.2.1 [7, 3] [7] { code := 22 } rfl rfl,
   (C6_startup_errors_surface extEndpointFail "quic" 1 7 3 () false 8 () 2000
      500 100 10 5).2.2.2.1 [7, 3] [7] { code := 33 } rfl rfl rfl⟩

/-- C9: when `spawn_server` succeeds, the `EndpointKeyUpdater` it returns
captures the `gossip_host` argument, the `max_concurrent_connections`
produced at startup (the total table capacity), and the server's own
endpoint; consequently every subsequent `update_key` call rebuilds the
configuration with exactly those unchanged parameters — only the signing
key varies. -/
theorem C9_key_updater_captures_startup_params (ext : Externals)
    (name : String) (sock : UdpSocket) (keypair : Keypair)
    (gossip_host : IpAddr) (packet_sender : PacketSender)
    (exit_flag : ExitFlag) (max_connections_per_peer : Nat)
    (staked_nodes : StakedNodes)
    (max_staked_connections max_unstaked_connections : Nat)
    (max_streams_per_ms : Nat) (wait_for_chunk_timeout coalesce : Duration)
    (r : SpawnServerResult) (n : Nat)
    (h : spawn_server ext name sock keypair gossip_host packet_sender
        exit_flag max_connections_per_peer staked_nodes
        max_staked_connections max_unstaked_connections max_streams_per_ms
        wait_for_chunk_timeout coalesce = (Except.ok r, n)) :
    r.key_updater.gossip_host = gossip_host ∧
      r.key_updater.max_concurrent_connections =
        max_staked_connections + max_unstaked_connections ∧
      r.key_updater.endpoint = r.endpoint ∧
      ∀ ext2 key, r.key_updater.update_key ext2 key =
        match configure_server ext2 key gossip_host
            (max_staked_connections + max_unstaked_connections) with
        | Except.error e => (Except.error e, r.endpoint)
        | Except.ok (cfg, _) =>
            (Except.ok (), r.endpoint.set_server_config (some cfg)) := by
  unfold spawn_server at h
  cases hnb : nonblocking_spawn_server ext sock keypair gossip_host
      max_staked_connections max_unstaked_connections with
  | error e =>
    rw [hnb] at h
    simp at h
  | ok result =>
    rw [hnb] at h
    simp only [Prod.mk.injEq, Except.ok.injEq] at h
    obtain ⟨hr, _⟩ := h
    subst hr
    have hmcc : result.max_concurrent_connections =
        max_staked_connections + max_unstaked_connections := by
      unfold nonblocking_spawn_server at hnb
      cases hc : configure_server ext keypair gossip_host
          (max_staked_connections + max_unstaked_connections) with
      | error e => simp only [hc] at hnb; exact Except.noConfusion hnb
      | ok pr =>
        obtain ⟨config, pemChain⟩ := pr
        simp only [hc] at hnb
        cases he : ext.create_endpoint sock with
        | error e => simp only [he] at hnb; exact Except.noConfusion hnb
        | ok u =>
          cases u
          simp only [he, Except.ok.injEq] at hnb
          rw [← hnb]
    refine ⟨rfl, hmcc, rfl, ?_⟩
    intro ext2 key
    unfold EndpointKeyUpdater.update_key
    simp only [hmcc]

/-- The successful result of `spawn_server` on `extOk` with gossip host 3
and table capacities 2000 and 500. -/
def spawnRes0 : SpawnServerResult :=
  ((spawn_server extOk "quic" 1 7 3 () false 8 () 2000 500 100 10
      5).1.toOption).getD default

/-- C9 witness: the concrete updater returned on `extOk` captures gossip
host 3, limit 2000 + 500 and the server endpoint, and a later
`update_key` call at key 9 rebuilds with those parameters. -/
theorem C9_key_updater_captures_startup_params_witness :
    spawnRes0.key_updater.gossip_host = 3 ∧
      spawnRes0.key_updater.max_concurrent_connections = 2000 + 500 ∧
      spawnRes0.key_updater.endpoint = spawnRes0.endpoint ∧
      spawnRes0.key_updater.update_key extOk 9 =
        match configure_server extOk 9 3 (2000 + 500) with
        | Except.error e => (Except.error e, spawnRes0.endpoint)
        | Except.ok (cfg, _) =>
            (Except.ok (), spawnRes0.endpoint.set_server_config (some cfg)) :=
  ⟨(C9_key_updater_captures_startup_params extOk "quic" 1 7 3 () false 8 ()
      2000 500 100 10 5 spawnRes0 1 rfl).1,
   (C9_key_updater_captures_startup_params extOk "quic" 1 7 3 () false 8 ()
      2000 500 100 10 5 spawnRes0 1 rfl).2.1,
   (C9_key_updater_captures_startup_params extOk "quic" 1 7 3 () false 8 ()
      2000 500 100 10 5 spawnRes0 1 rfl).2.2.1,
   (C9_key_updater_captures_startup_params extOk "quic" 1 7 3 () false 8 ()
      2000 500 100 10 5 spawnRes0 1 rfl).2.2.2 extOk 9⟩

/-- C4: for every `StreamStats` state, `report` emits exactly one
snapshot datapoint (named by the `name` argument), leaves the five gauges
`total_connections`, `total_streams`, `stream_load_ema`,
`stream_load_ema_overflow` and `stream_load_capacity_overflow` unchanged,
and resets every delta counter (every counter the source reads with
`swap(0, _)`) to zero, touching nothing else. -/
theorem C4_report_resets_deltas_preserves_gauges (s : StreamStats)
    (name : String) :
    (s.report name).1.length = 1 ∧
      (s.report name).1.map Datapoint.name = [name] ∧
      (s.report name).2.total_connections = s.total_connections ∧
      (s.report name).2.total_streams = s.total_streams ∧
      (s.report name).2.stream_load_ema = s.stream_load_ema ∧
      (s.report name).2.stream_load_ema_overflow = s.stream_load_ema_overflow ∧
      (s.report name).2.stream_load_capacity_overflow =
        s.stream_load_capacity_overflow ∧
      (s.report name).2 =
        { s with
            total_new_connections := 0
            total_new_streams := 0
            num_evictions := 0
            connection_added_from_staked_peer := 0
            connection_added_from_unstaked_peer := 0
            connection_add_failed := 0
            connection_add_failed_invalid_stream_count := 0
            connection_add_failed_staked_node := 0
            connection_add_failed_unstaked_node := 0
            connection_add_failed_on_pruning := 0
            connection_removed := 0
            connection_remove_failed := 0
            connection_setup_timeout := 0
            connection_setup_error := 0
            connection_setup_error_timed_out := 0
            connection_setup_error_closed := 0
            connection_setup_error_transport := 0
            connection_setup_error_app_closed := 0
            connection_setup_error_reset := 0
            connection_setup_error_locally_closed := 0
            total_invalid_chunks := 0
            total_invalid_chunk_size := 0
            total_packets_allocated := 0
            total_packet_batches_allocated := 0
            total_packets_sent_for_batching := 0
            total_staked_packets_sent_for_batching := 0
            total_unstaked_packets_sent_for_batching := 0
            total_bytes_sent_for_batching := 0
            total_chunks_sent_for_batching := 0
            total_packets_sent_to_consumer := 0
            total_bytes_sent_to_consumer := 0
            total_chunks_processed_by_batcher := 0
            total_chunks_received := 0
            total_staked_chunks_received := 0
            total_unstaked_chunks_received := 0
            total_packet_batch_send_err := 0
            total_handle_chunk_to_packet_batcher_send_err := 0
            total_packet_batches_sent := 0
            total_packet_batches_none := 0
            total_stream_read_errors := 0
            total_stream_read_timeouts := 0
            throttled_streams := 0
            throttled_unstaked_streams := 0
            throttled_staked_streams := 0 } :=
  ⟨rfl, rfl, rfl, rfl, rfl, rfl, rfl, rfl⟩
